import Mathlib

/-!
Verification of the voice-bot gateway (main.py) and its IPO MCP data service
(ipo_mcp_server.py, ipo_data.py) against its specification.

Shallow embedding conventions:
* PCM byte buffers are `List Nat` with each element `< 256`.
* 16-bit signed samples are `List Int` (numpy int16 values, range [-32768, 32767]).
* float32 sample values are modelled as `ℚ`; every float32 operation the code
  performs (int16 → float32 conversion and multiplication by the power of two
  1/32768) is exact in float32, so the rational model is faithful.
* Python exceptions are `Except String` results; a Python `try`/`except` block
  becomes a `match` on those results.
* Python dicts used as JSON objects are association lists `List (String × ...)`;
  dict insertion of a fresh key appends (Python preserves insertion order).
-/

/-! ## ipo_data.py: the static mock database -/

/-- One entry of USER_APPLICATIONS (ipo_data.py lines 12-53). -/
structure Application where
  symbol : String
  companyName : String
  status : String
  paymentStatus : String
  title : String
  remark : String
  category : String
  appliedAsLabel : String
  amount : Nat
  canCancel : Bool
  refundInitiationDate : Option String
  upiId : String
deriving DecidableEq, Repr

/-- One entry of ACTIVE_IPOS / UPCOMING_IPOS / CLOSED_IPOS (ipo_data.py).
Fields absent from a given dict are `none`. -/
structure IPO where
  symbol : String
  growwShortName : String
  status : String
  biddingDates : Option String
  priceRange : Option String
  lotSize : Option Nat
  minBidQuantity : Option Nat
  isSme : Option Bool
  allotmentDate : Option String
  listingDate : Option String
  preApplyOpen : Option Bool
  listingStatus : Option String
deriving DecidableEq, Repr

/-- ipo_data.USER_APPLICATIONS: the three static applications. -/
def USER_APPLICATIONS : List Application :=
  [⟨"INTERARCH", "Interarch Building Products", "PAYMENT_PENDING", "PENDING",
    "Approve request on Groww UPI", "Please wait for UPI request.", "IND",
    "Regular", 14400, true, none, "8942052094@yesg"⟩,
   ⟨"SUNTECHELEC", "Suntech Electronics", "NOT_ALLOTED", "SUCCESS",
    "IPO Not Allotted", "Amount will be released by the bank.", "IND",
    "Regular", 5500, false, some "2024-08-26", "9123000001@upi"⟩,
   ⟨"URBANGREEN", "Urban Green Infra (SME)", "APPROVED", "SUCCESS",
    "Application Accepted by Exchange", "Waiting for allotment date.", "HNI",
    "HNI", 250000, false, none, "9988776655@icici"⟩]

/-- ipo_data.ACTIVE_IPOS: the two static active IPOs. -/
def ACTIVE_IPOS : List IPO :=
  [⟨"INTERARCH", "Interarch Building Products", "ACTIVE",
    some "Aug 19 - Aug 21, 2024", some "₹850 - ₹900", some 16, none,
    some false, some "2024-08-22", some "2024-08-26", none, none⟩,
   ⟨"RURALFIN", "Rural Finserve Limited (SME)", "ACTIVE",
    some "Aug 18 - Aug 20, 2024", some "₹160 - ₹165", some 35, some 70,
    some true, some "2024-08-21", some "2024-08-26", none, none⟩]

/-- ipo_data.UPCOMING_IPOS: the single static upcoming IPO. -/
def UPCOMING_IPOS : List IPO :=
  [⟨"NOVAFOODS", "Nova Foods Limited", "UPCOMING",
    some "Dec 02 - Dec 04, 2024", some "₹95 - ₹100", some 40, none,
    none, none, none, some true, none⟩]

/-! ## ipo_mcp_server.py: the tool handlers -/

/-- Return value of get_user_applications: the dict with key "applications". -/
structure UserApplicationsPayload where
  applications : List Application
deriving DecidableEq, Repr

/-- ipo_mcp_server.get_user_applications (lines 13-20): ignores its user_id
argument (Python default "u123") and returns all applications. -/
def get_user_applications (user_id : String) : UserApplicationsPayload :=
  ⟨USER_APPLICATIONS⟩

/-- Return value of get_active_ipos: the dict with key "active_ipos". -/
structure ActiveIposPayload where
  active_ipos : List IPO
deriving DecidableEq, Repr

/-- ipo_mcp_server.get_active_ipos (lines 22-28). -/
def get_active_ipos : ActiveIposPayload :=
  ⟨ACTIVE_IPOS⟩

/-- Python str.upper restricted to the ASCII alphabet used by the IPO symbols. -/
def upperAscii (s : String) : String := String.mk (s.data.map Char.toUpper)

/-- The dict serialized by json.dumps in get_ipo_specific_details; `.get` on a
possibly-missing dict key yields an `Option`.  json.dumps is abstracted to the
record itself (an injective rendering). -/
structure IpoDetailsPayload where
  ipoName : Option String
  status : Option String
  biddingDates : Option String
  priceRange : Option String
  lotSize : Option Nat
  smeRule : String
  allotmentDate : Option String
  listingDate : Option String
deriving DecidableEq, Repr

/-- Result of get_ipo_specific_details: the handler returns a string in both
branches; the constructor tags which return statement produced it
(errorMsg line 55, payload line 63). -/
inductive DetailsResult where
  | errorMsg (s : String)
  | payload (d : IpoDetailsPayload)
deriving DecidableEq, Repr

/-- ipo_mcp_server.get_ipo_specific_details (lines 46-72): case-insensitive
lookup over ACTIVE_IPOS ++ UPCOMING_IPOS, SME-rule annotation for SME IPOs. -/
def get_ipo_specific_details (symbol : String) : DetailsResult :=
  match (ACTIVE_IPOS ++ UPCOMING_IPOS).find?
      (fun i => upperAscii i.symbol == upperAscii symbol) with
  | none => .errorMsg ("Error: IPO " ++ symbol ++ " not found in active or upcoming list.")
  | some ipo =>
      let smeRule :=
        if ipo.isSme.getD false then
          "NOTE: This is an SME IPO. Minimum application is 2 lots (Shares: " ++
            toString (ipo.minBidQuantity.getD ((ipo.lotSize.getD 0) * 2)) ++ ")."
        else "This is a regular IPO."
      .payload ⟨some ipo.growwShortName, some ipo.status, ipo.biddingDates,
        ipo.priceRange, ipo.lotSize, smeRule, ipo.allotmentDate, ipo.listingDate⟩

/-- Result type of the tool bridge boundary (spec section 4.3): `invoke` returns
ok, UnknownOperation, or HandlerError wrapping a raised exception; it never
throws past the boundary. -/
inductive BridgeResult (α : Type) where
  | ok (a : α)
  | unknownOperation
  | handlerError (e : String)
deriving DecidableEq, Repr

/-- The bridge invocation of get_ipo_specific_details.  The handler body is
total (every operation in lines 46-72 is non-raising), so the bridge always
produces an ok-tagged result. -/
def invoke_get_ipo_specific_details (symbol : String) : BridgeResult DetailsResult :=
  .ok (get_ipo_specific_details symbol)

/-! ## main.py: audio conversion helpers -/

/-- numpy.frombuffer(sound, dtype=np.int16): interpret a byte buffer as
little-endian signed 16-bit samples; numpy raises ValueError when the buffer
length is not a multiple of the element size. -/
def bytesToInt16 : List Nat → Except String (List Int)
  | [] => .ok []
  | [_] => .error "buffer size must be a multiple of element size"
  | lo :: hi :: rest =>
      (bytesToInt16 rest).map (fun t =>
        (if lo + 256 * hi < 32768 then ((lo + 256 * hi : Nat) : Int)
         else ((lo + 256 * hi : Nat) : Int) - 65536) :: t)

/-- numpy absolute value at dtype int16: wraps on overflow, so
abs(-32768) = -32768.  Faithful for inputs in the int16 range. -/
def int16Abs (s : Int) : Int := if s = -32768 then -32768 else |s|

/-- np.abs(audio_int16).max() for a nonempty sample list; -65536 is below every
int16 value so the fold computes the true maximum on nonempty input (numpy
raises on empty input, which callers catch upstream). -/
def npMaxAbs (samples : List Int) : Int := (samples.map int16Abs).foldr max (-65536)

/-- main.int2float (lines 56-71), after frombuffer: convert to float and, only
when np.abs(...).max() > 0, scale by 1/32768.  float32 is modelled by ℚ (both
steps are exact in float32). -/
def int2float (samples : List Int) : List ℚ :=
  if npMaxAbs samples > 0 then samples.map (fun s => ((s : ℤ) : ℚ) / 32768)
  else samples.map (fun s => ((s : ℤ) : ℚ))

/-! ## main.py: base64 transport codec

receive_from_gemini line 195 encodes outbound audio with base64.b64encode;
receive_from_client line 244 decodes inbound audio with base64.b64decode.
Both operate on byte lists; characters are their ASCII codes. -/

/-- The RFC 4648 base64 alphabet: sextet value (< 64) to ASCII code. -/
def encodeSextet (n : Nat) : Nat :=
  if n < 26 then 65 + n
  else if n < 52 then 97 + (n - 26)
  else if n < 62 then 48 + (n - 52)
  else if n = 62 then 43
  else 47

/-- Inverse of the base64 alphabet: ASCII code to sextet value. -/
def decodeSextet (c : Nat) : Nat :=
  if 65 ≤ c ∧ c ≤ 90 then c - 65
  else if 97 ≤ c ∧ c ≤ 122 then c - 97 + 26
  else if 48 ≤ c ∧ c ≤ 57 then c - 48 + 52
  else if c = 43 then 62
  else 63

/-- base64.b64encode: groups of 3 bytes become 4 alphabet characters, a
trailing group of 2 or 1 bytes is padded with one or two 61 ('=') characters. -/
def b64encode : List Nat → List Nat
  | b0 :: b1 :: b2 :: rest =>
      encodeSextet (b0 / 4) :: encodeSextet ((b0 % 4) * 16 + b1 / 16) ::
      encodeSextet ((b1 % 16) * 4 + b2 / 64) :: encodeSextet (b2 % 64) ::
      b64encode rest
  | [b0, b1] =>
      [encodeSextet (b0 / 4), encodeSextet ((b0 % 4) * 16 + b1 / 16),
       encodeSextet ((b1 % 16) * 4), 61]
  | [b0] =>
      [encodeSextet (b0 / 4), encodeSextet ((b0 % 4) * 16), 61, 61]
  | [] => []

/-- base64.b64decode on well-formed input: each 4-character group yields 3
bytes, or 2 or 1 bytes when terminated by '=' padding (code 61). -/
def b64decode : List Nat → List Nat
  | c0 :: c1 :: c2 :: c3 :: rest =>
      if c3 = 61 then
        if c2 = 61 then
          [decodeSextet c0 * 4 + decodeSextet c1 / 16]
        else
          [decodeSextet c0 * 4 + decodeSextet c1 / 16,
           (decodeSextet c1 % 16) * 16 + decodeSextet c2 / 4]
      else
        (decodeSextet c0 * 4 + decodeSextet c1 / 16) ::
        ((decodeSextet c1 % 16) * 16 + decodeSextet c2 / 4) ::
        ((decodeSextet c2 % 4) * 64 + decodeSextet c3) ::
        b64decode rest
  | _ => []

/-! ## main.py: the VAD block segmenter (receive_from_client lines 237-261)

The loop body appends the decoded float samples to vad_buffer, then repeatedly
removes the leading 512-sample block and classifies it while at least 512
samples remain. -/

/-- One full draining pass of the while-loop at lines 254-261, without the
classifier: returns the classified blocks in order and the remainder. -/
def drain {α : Type} (buf : List α) : List (List α) × List α :=
  if h : 512 ≤ buf.length then
    let r := drain (buf.drop 512)
    (buf.take 512 :: r.1, r.2)
  else
    ([], buf)
termination_by buf.length
decreasing_by simp [List.length_drop]; omega

/-- The whole client-audio session at segmenter level: fold the per-message
push (append then drain) over the inbound chunks, accumulating every
classified block; the second component is the carry buffer after the final
push. -/
def pushAll {α : Type} : List (List α) → List α → List (List α) × List α
  | [], carry => ([], carry)
  | c :: cs, carry =>
      let r := drain (carry ++ c)
      let r2 := pushAll cs r.2
      (r.1 ++ r2.1, r2.2)

/-- The while-loop at lines 254-261 with the classifier call: vad_buffer is
rebound to its tail before vad_iterator runs, so a raise (second component
some e) leaves the buffer already shrunk; a raise stops the loop because the
exception propagates to the message-level except handler. -/
def vadDrainLoop (classify : List ℚ → Except String Bool) (buf : List ℚ) :
    List ℚ × Option String :=
  if h : 512 ≤ buf.length then
    match classify (buf.take 512) with
    | .error e => (buf.drop 512, some e)
    | .ok _ => vadDrainLoop classify (buf.drop 512)
  else (buf, none)
termination_by buf.length
decreasing_by simp [List.length_drop]; omega

/-! ## main.py: the client→model pump body (receive_from_client lines 240-269) -/

/-- Observable outcome of handling one inbound client audio message. -/
structure MessageResult where
  newVadBuffer : List ℚ
  forwarded : Option (List Nat × Bool)
  aborted : Bool
deriving Repr

/-- One iteration of the message loop for a type:"audio" message.  The whole
body (base64 decode, frombuffer, int2float, buffer extension, VAD loop, gemini
send) sits in one try whose except logs and continues: any raise skips the
rest of the body — including the forward at line 265 — without aborting the
session.  `decoded` is the outcome of base64.b64decode(message["data"]).  The
raise points, in program order: frombuffer raises on an odd byte count;
np.max raises on an empty sample array; on exactly one sample, the squeeze at
line 70 produces a 0-d tensor whose tolist() is a bare float, so
vad_buffer.extend at line 251 raises TypeError before any classifier call; a
classifier raise aborts the drain loop.  Only when the buffer holds at least
two samples and no classifier call raises are the raw decoded bytes sent with
end_of_turn=False. -/
def handleAudioMessage (classify : List ℚ → Except String Bool)
    (vadBuffer : List ℚ) (decoded : Except String (List Nat)) : MessageResult :=
  match decoded with
  | .error _ => ⟨vadBuffer, none, false⟩
  | .ok audio =>
      match bytesToInt16 audio with
      | .error _ => ⟨vadBuffer, none, false⟩
      | .ok [] => ⟨vadBuffer, none, false⟩
      | .ok [_] => ⟨vadBuffer, none, false⟩
      | .ok (s0 :: s1 :: samples) =>
          match vadDrainLoop classify (vadBuffer ++ int2float (s0 :: s1 :: samples)) with
          | (buf2, some _) => ⟨buf2, none, false⟩
          | (buf2, none) => ⟨buf2, some (audio, false), false⟩

/-! ## main.py: the model→client pump, tool-call handling (lines 198-221) -/

/-- One function call of a tool_call batch from the model. -/
structure FunctionCall where
  id : String
  name : String
  args : String
deriving DecidableEq, Repr

/-- The payload of a function_responses frame: the success dict
response={"result": ...} or the error dict response={"error": str(tool_err)}. -/
inductive ToolResponsePayload where
  | result (text : String)
  | error (msg : String)
deriving DecidableEq, Repr

/-- One function_responses entry sent back to the model (lines 210-221). -/
structure FunctionResponse where
  name : String
  response : ToolResponsePayload
  id : String
deriving DecidableEq, Repr

/-- Handling of one call (lines 199-221): try call_tool; on success send a
result response, on a raise send an error response — both tagged with the
model-assigned call.id. -/
def resolveCall (callTool : String → String → Except String String)
    (c : FunctionCall) : FunctionResponse :=
  match callTool c.name c.args with
  | .ok out => ⟨c.name, .result out, c.id⟩
  | .error e => ⟨c.name, .error e, c.id⟩

/-- The for-loop over response.tool_call.function_calls: one response is sent
per call, in order. -/
def processToolCallBatch (callTool : String → String → Except String String)
    (calls : List FunctionCall) : List FunctionResponse :=
  calls.map (resolveCall callTool)

/-! ## main.py: tool schema normalization (build_agent_and_tools lines 86-96) -/

/-- JSON values, as found in an MCP tool inputSchema. -/
inductive JsonValue where
  | str (s : String)
  | num (n : Int)
  | boolean (b : Bool)
  | null
  | arr (items : List JsonValue)
  | obj (fields : List (String × JsonValue))

/-- An MCP tool as listed by session.list_tools. -/
structure McpTool where
  name : String
  description : String
  inputSchema : List (String × JsonValue)

/-- A function declaration advertised to the Live API. -/
structure FunctionDeclaration where
  name : String
  description : String
  parameters : List (String × JsonValue)

/-- Lines 88-90: schema = tool.inputSchema.copy(); if "type" not in schema:
schema["type"] = "object".  Inserting a fresh key appends in dict order. -/
def normalizeSchema (schema : List (String × JsonValue)) :
    List (String × JsonValue) :=
  if (schema.lookup "type").isNone then schema ++ [("type", .str "object")]
  else schema

/-- Lines 86-96: build one declaration per MCP tool, with name and description
passed through and the normalized schema as parameters. -/
def buildDeclarations (tools : List McpTool) : List FunctionDeclaration :=
  tools.map (fun t => ⟨t.name, t.description, normalizeSchema t.inputSchema⟩)

/-! ## main.py: context resource fetch with fallback (lines 98-109) -/

/-- Lines 98-109: five resource reads inside one try; all five texts are
concatenated on success, and any raise (each read's outcome is an Except)
falls back to the fixed string — the session build proceeds either way, which
the total return type String expresses. -/
def buildContextText (compliance logic preApply appUpi postApply :
    Except String String) : String :=
  match compliance, logic, preApply, appUpi, postApply with
  | .ok c, .ok l, .ok p1, .ok p2, .ok p3 =>
      "--- COMPLIANCE ---\n" ++ c ++ "\n--- PROCEDURES ---\n" ++ l ++ "\n" ++
        p1 ++ "\n" ++ p2 ++ "\n" ++ p3
  | _, _, _, _, _ => "Follow standard IPO guidelines."

/-! ## Helper lemmas: the drain loop -/

theorem drain_flatten {α : Type} (buf : List α) :
    (drain buf).1.flatten ++ (drain buf).2 = buf := by
  induction buf using drain.induct with
  | case1 buf h ih =>
      rw [drain]
      simp only [dif_pos h, List.flatten_cons, List.append_assoc]
      rw [ih, List.take_append_drop]
  | case2 buf h => rw [drain]; simp [h]

theorem drain_blocks {α : Type} (buf : List α) :
    ∀ b ∈ (drain buf).1, b.length = 512 := by
  induction buf using drain.induct with
  | case1 buf h ih =>
      rw [drain]
      simp only [dif_pos h, List.mem_cons]
      rintro b (rfl | hb)
      · simp [List.length_take]; omega
      · exact ih b hb
  | case2 buf h => rw [drain]; simp [h]

theorem drain_carry {α : Type} (buf : List α) : (drain buf).2.length < 512 := by
  induction buf using drain.induct with
  | case1 buf h ih => rw [drain]; simp only [dif_pos h]; exact ih
  | case2 buf h => rw [drain]; simp only [dif_neg h]; omega

theorem pushAll_flatten {α : Type} (cs : List (List α)) :
    ∀ carry : List α,
      (pushAll cs carry).1.flatten ++ (pushAll cs carry).2 = carry ++ cs.flatten := by
  induction cs with
  | nil => intro carry; simp [pushAll]
  | cons c cs ih =>
      intro carry
      simp only [pushAll, List.flatten_cons, List.flatten_append, List.append_assoc]
      rw [ih (drain (carry ++ c)).2]
      rw [← List.append_assoc, drain_flatten, List.append_assoc]

theorem pushAll_blocks {α : Type} (cs : List (List α)) :
    ∀ carry : List α, ∀ b ∈ (pushAll cs carry).1, b.length = 512 := by
  induction cs with
  | nil => intro carry b hb; simp [pushAll] at hb
  | cons c cs ih =>
      intro carry b hb
      simp only [pushAll, List.mem_append] at hb
      rcases hb with hb | hb
      · exact drain_blocks _ b hb
      · exact ih _ b hb

theorem pushAll_carry {α : Type} (cs : List (List α)) :
    ∀ carry : List α, carry.length < 512 → (pushAll cs carry).2.length < 512 := by
  induction cs with
  | nil => intro carry hc; simpa [pushAll] using hc
  | cons c cs ih =>
      intro carry hc
      simp only [pushAll]
      exact ih _ (drain_carry (carry ++ c))

/-! ## Helper lemmas: batch resolution -/

theorem resolveCall_id (callTool : String → String → Except String String)
    (c : FunctionCall) : (resolveCall callTool c).id = c.id := by
  unfold resolveCall
  cases callTool c.name c.args <;> rfl

theorem zip_map_self {α β : Type} (g : α → β) :
    ∀ (l : List α) (a : α) (b : β), (a, b) ∈ l.zip (l.map g) → b = g a := by
  intro l
  induction l with
  | nil => intro a b h; simp at h
  | cons x xs ih =>
      intro a b h
      simp only [List.map_cons, List.zip_cons_cons, List.mem_cons] at h
      rcases h with h | h
      · rw [(Prod.mk.injEq _ _ _ _).mp h |>.2, (Prod.mk.injEq _ _ _ _).mp h |>.1]
      · exact ih a b h

/-- C1: every tool call in a batch from the model is resolved exactly once:
one function response per call, in order, carrying the model-assigned id
verbatim, with a result payload when the handler returns and an error payload
when it raises (main.py receive_from_gemini lines 198-221). -/
theorem tool_call_batch_resolved_exactly_once
    (callTool : String → String → Except String String) (calls : List FunctionCall) :
    (processToolCallBatch callTool calls).length = calls.length ∧
    (processToolCallBatch callTool calls).map FunctionResponse.id =
      calls.map FunctionCall.id ∧
    ∀ c r, (c, r) ∈ calls.zip (processToolCallBatch callTool calls) →
      r.id = c.id ∧
      ((∃ out, callTool c.name c.args = .ok out ∧ r.response = .result out) ∨
       (∃ e, callTool c.name c.args = .error e ∧ r.response = .error e)) := by
  refine ⟨by simp [processToolCallBatch], ?_, ?_⟩
  · simp only [processToolCallBatch, List.map_map]
    exact List.map_congr_left (fun c _ => resolveCall_id callTool c)
  · intro c r hcr
    have hr : r = resolveCall callTool c := zip_map_self _ calls c r hcr
    subst hr
    refine ⟨resolveCall_id callTool c, ?_⟩
    unfold resolveCall
    cases h : callTool c.name c.args with
    | ok out => exact Or.inl ⟨out, rfl, rfl⟩
    | error e => exact Or.inr ⟨e, rfl, rfl⟩

/-- Witness for C1 at a concrete one-call batch with a succeeding handler. -/
theorem tool_call_batch_resolved_witness :
    (FunctionResponse.mk "get_active_ipos" (.result "ok") "call-1").id =
      (FunctionCall.mk "call-1" "get_active_ipos" "").id :=
  ((tool_call_batch_resolved_exactly_once (fun _ _ => .ok "ok")
      [⟨"call-1", "get_active_ipos", ""⟩]).2.2
    ⟨"call-1", "get_active_ipos", ""⟩ ⟨"get_active_ipos", .result "ok", "call-1"⟩
    (by decide)).1

/-- C2: for every finite sequence of pushed chunks, the segmenter partitions
the pushed samples into consecutive disjoint 512-sample blocks plus a carry:
the classified blocks flattened in order followed by the carry reproduce the
pushed stream exactly (no sample classified twice, none skipped), every block
has exactly 512 samples, classified plus carried counts equal the pushed
count, and after each push the carry holds strictly fewer than 512 samples
(main.py receive_from_client lines 237-256). -/
theorem segmenter_block_partition_invariants {α : Type} (chunks : List (List α)) :
    (pushAll chunks ([] : List α)).1.flatten ++ (pushAll chunks []).2 =
      chunks.flatten ∧
    (∀ b ∈ (pushAll chunks ([] : List α)).1, b.length = 512) ∧
    ((pushAll chunks ([] : List α)).1.map List.length).sum +
      (pushAll chunks ([] : List α)).2.length = (chunks.map List.length).sum ∧
    (pushAll chunks ([] : List α)).2.length < 512 := by
  refine ⟨by simpa using pushAll_flatten chunks [], pushAll_blocks chunks [], ?_,
    pushAll_carry chunks [] (by simp)⟩
  have h := congrArg List.length (pushAll_flatten chunks ([] : List α))
  simpa [List.length_append, List.length_flatten] using h

theorem drain_range512 : drain (List.range 512) = ([List.range 512], ([] : List Nat)) := by
  rw [drain]
  rw [dif_pos (by simp)]
  rw [drain]
  have hd : (List.range 512).drop 512 = [] := by
    apply List.drop_eq_nil_of_le; simp
  have ht : (List.range 512).take 512 = List.range 512 := by
    apply List.take_of_length_le; simp
  simp [hd, ht]

/-- Witness for C2: pushing one 512-sample chunk yields exactly one block of
512 samples and an empty carry. -/
theorem segmenter_block_partition_witness :
    (List.range 512).length = 512 ∧
    (pushAll [List.range 512] ([] : List Nat)).2.length < 512 := by
  have h := segmenter_block_partition_invariants [List.range 512]
  refine ⟨h.2.1 (List.range 512) ?_, h.2.2.2⟩
  simp [pushAll, drain_range512]

/-- C4 counterexample: invoking get_ipo_specific_details with a symbol in
neither list yields an ok-tagged bridge result carrying the not-found message
string — not a HandlerError-tagged error result as the claim states. -/
theorem unknown_symbol_not_handler_error_cex :
    invoke_get_ipo_specific_details "ZZZTEST" =
      .ok (.errorMsg "Error: IPO ZZZTEST not found in active or upcoming list.") ∧
    ∀ e, invoke_get_ipo_specific_details "ZZZTEST" ≠ .handlerError e := by
  constructor
  · decide
  · intro e h
    rw [show invoke_get_ipo_specific_details "ZZZTEST" =
        .ok (.errorMsg "Error: IPO ZZZTEST not found in active or upcoming list.")
      from by decide] at h
    exact BridgeResult.noConfusion h

/-- C4 amended: the RURALFIN payload's SME-rule annotation states a minimum
bid of 70 shares (2 lots of lot size 35); any symbol matching no active or
upcoming IPO produces, without a raised fault, an ok-tagged result carrying
the not-found message (a success string, not a HandlerError). -/
theorem ipo_details_amended :
    (∃ d, get_ipo_specific_details "RURALFIN" = .payload d ∧
      d.smeRule =
        "NOTE: This is an SME IPO. Minimum application is 2 lots (Shares: 70)." ∧
      d.lotSize = some 35) ∧
    (∀ s : String,
      ((ACTIVE_IPOS ++ UPCOMING_IPOS).all
        (fun i => !(upperAscii i.symbol == upperAscii s))) = true →
      invoke_get_ipo_specific_details s =
        .ok (.errorMsg ("Error: IPO " ++ s ++ " not found in active or upcoming list."))) := by
  constructor
  · exact ⟨_, rfl, rfl, rfl⟩
  · intro s hs
    unfold invoke_get_ipo_specific_details get_ipo_specific_details
    rw [List.find?_eq_none.mpr]
    intro i hi
    have := (List.all_eq_true.mp hs) i hi
    simpa using this

/-- Witness for C4 amended at the concrete unknown symbol "zzzq". -/
theorem ipo_details_amended_witness :
    invoke_get_ipo_specific_details "zzzq" =
      .ok (.errorMsg ("Error: IPO " ++ "zzzq" ++ " not found in active or upcoming list.")) :=
  ipo_details_amended.2 "zzzq" (by decide)

/-- C5: get_active_ipos returns the payload holding exactly the static active
IPO set: two entries, symbols INTERARCH then RURALFIN
(ipo_mcp_server.py lines 22-28, ipo_data.py lines 56-80). -/
theorem get_active_ipos_static_payload :
    get_active_ipos.active_ipos = ACTIVE_IPOS ∧
    get_active_ipos.active_ipos.length = 2 ∧
    get_active_ipos.active_ipos.map IPO.symbol = ["INTERARCH", "RURALFIN"] :=
  ⟨rfl, rfl, rfl⟩

/-- C10: get_user_applications ignores its user_id argument — any two
invocations agree — and returns the full static three-element application
list with symbols INTERARCH, SUNTECHELEC, URBANGREEN
(ipo_mcp_server.py lines 13-20, ipo_data.py lines 12-53). -/
theorem get_user_applications_ignores_user_id :
    (∀ u v : String, get_user_applications u = get_user_applications v) ∧
    (get_user_applications "u123").applications = USER_APPLICATIONS ∧
    (get_user_applications "u123").applications.length = 3 ∧
    (get_user_applications "u123").applications.map Application.symbol =
      ["INTERARCH", "SUNTECHELEC", "URBANGREEN"] :=
  ⟨fun _ _ => rfl, rfl, rfl, rfl⟩

/-- C6 (code bug): int2float of the byte buffer [0x00, 0x80] — the single
int16 sample -32768 — returns -32768 unscaled, because numpy absolute value
wraps at int16 (-32768 stays -32768) so the abs-max guard abs_max > 0 fails
and the 1/32768 normalization is skipped; the docstring of int2float promises
output normalized between -1 and 1, and the claim's scaled value would be -1.
The all-zero silence path stays all-zero with no division, as claimed. -/
theorem int2float_overflow_divergence :
    bytesToInt16 [0, 128] = .ok [-32768] ∧
    int2float [-32768] = [(-32768 : ℚ)] ∧
    ¬((-32768 : ℚ) = (-32768 : ℚ) / 32768 ∧ -1 ≤ (-32768 : ℚ)) ∧
    int2float [0, 0, 0] = [0, 0, 0] := by
  refine ⟨rfl, ?_, ?_, ?_⟩
  · norm_num [int2float, npMaxAbs, int16Abs]
  · intro h
    have := h.2
    norm_num at this
  · norm_num [int2float, npMaxAbs, int16Abs]

/-! ## Helper lemmas: association-list lookup under append -/

theorem lookup_append_none {α β : Type} [BEq α] (l₁ l₂ : List (α × β)) (k : α)
    (h : l₁.lookup k = none) : (l₁ ++ l₂).lookup k = l₂.lookup k := by
  induction l₁ with
  | nil => simp
  | cons p l ih =>
      rcases p with ⟨k2, v⟩
      by_cases hk : (k == k2) = true
      · simp only [List.cons_append, List.lookup, hk] at h
        exact absurd h (by simp)
      · rw [Bool.not_eq_true] at hk
        simp only [List.cons_append, List.lookup, hk, List.append_eq] at h ⊢
        exact ih h

theorem lookup_append_some {α β : Type} [BEq α] (l₁ l₂ : List (α × β)) (k : α) (v : β)
    (h : l₁.lookup k = some v) : (l₁ ++ l₂).lookup k = some v := by
  induction l₁ with
  | nil => simp at h
  | cons p l ih =>
      rcases p with ⟨k2, w⟩
      by_cases hk : (k == k2) = true
      · simp only [List.cons_append, List.lookup, hk] at h ⊢
        exact h
      · rw [Bool.not_eq_true] at hk
        simp only [List.cons_append, List.lookup, hk, List.append_eq] at h ⊢
        exact ih h

theorem normalizeSchema_lookup_isSome (schema : List (String × JsonValue)) :
    ((normalizeSchema schema).lookup "type").isSome = true := by
  unfold normalizeSchema
  by_cases h : (schema.lookup "type").isNone = true
  · rw [if_pos h, lookup_append_none _ _ _ (Option.isNone_iff_eq_none.mp h)]
    rfl
  · rw [if_neg h]
    rw [Option.isNone_iff_eq_none] at h
    cases hx : schema.lookup "type" with
    | none => exact absurd hx h
    | some v => rfl

/-- C7: every function declaration advertised to the model carries a parameter
schema containing the key "type"; when the tool's inputSchema lacks it the
bridge inserts "type": "object", and otherwise the schema is passed through
unchanged, with names, descriptions and all other keys preserved
(main.py build_agent_and_tools lines 86-96). -/
theorem schema_type_normalization (tools : List McpTool) :
    (∀ d ∈ buildDeclarations tools, (d.parameters.lookup "type").isSome = true) ∧
    ((buildDeclarations tools).map FunctionDeclaration.name = tools.map McpTool.name) ∧
    (∀ t : McpTool, t.inputSchema.lookup "type" = none →
      (normalizeSchema t.inputSchema).lookup "type" = some (.str "object") ∧
      ∀ k, (k == "type") = false →
        (normalizeSchema t.inputSchema).lookup k = t.inputSchema.lookup k) ∧
    (∀ t : McpTool, (t.inputSchema.lookup "type").isSome = true →
      normalizeSchema t.inputSchema = t.inputSchema) := by
  refine ⟨?_, by simp [buildDeclarations], ?_, ?_⟩
  · intro d hd
    simp only [buildDeclarations, List.mem_map] at hd
    rcases hd with ⟨t, _, rfl⟩
    exact normalizeSchema_lookup_isSome t.inputSchema
  · intro t ht
    unfold normalizeSchema
    rw [if_pos (by rw [ht]; rfl)]
    constructor
    · rw [lookup_append_none _ _ _ ht]; rfl
    · intro k hk
      cases hkk : t.inputSchema.lookup k with
      | none =>
          rw [lookup_append_none _ _ _ hkk]
          simp [List.lookup, hk]
      | some v => exact lookup_append_some _ _ _ _ hkk
  · intro t ht
    cases hx : t.inputSchema.lookup "type" with
    | none => rw [hx] at ht; simp at ht
    | some v => unfold normalizeSchema; rw [hx]; simp

/-- Witness for C7: a schema lacking "type" gains "type": "object". -/
theorem schema_type_normalization_witness :
    (normalizeSchema [("properties", JsonValue.obj [])]).lookup "type" =
      some (JsonValue.str "object") :=
  ((schema_type_normalization []).2.2.1
    ⟨"get_active_ipos", "desc", [("properties", JsonValue.obj [])]⟩ rfl).1

/-- C8: if reading any of the five context resources at session start fails,
the generic fallback string is substituted as the context text and session
setup proceeds — the build function is total and no error escapes
(main.py build_agent_and_tools lines 98-109). -/
theorem context_fallback_on_failure (r1 r2 r3 r4 r5 : Except String String)
    (h : r1.isOk = false ∨ r2.isOk = false ∨ r3.isOk = false ∨ r4.isOk = false ∨
      r5.isOk = false) :
    buildContextText r1 r2 r3 r4 r5 = "Follow standard IPO guidelines." := by
  unfold buildContextText
  rcases r1 with e1 | a1 <;> rcases r2 with e2 | a2 <;> rcases r3 with e3 | a3 <;>
    rcases r4 with e4 | a4 <;> rcases r5 with e5 | a5 <;>
    simp_all [Except.isOk, Except.toBool]

/-- Witness for C8: a failing compliance read forces the fallback text. -/
theorem context_fallback_witness :
    buildContextText (.error "connection reset") (.ok "a") (.ok "b") (.ok "c")
      (.ok "d") = "Follow standard IPO guidelines." :=
  context_fallback_on_failure _ _ _ _ _ (Or.inl rfl)

/-! ## Helper lemmas: base64 alphabet -/

theorem sextet_roundtrip : ∀ n < 64, decodeSextet (encodeSextet n) = n ∧
    encodeSextet n ≠ 61 := by decide

/-- C9: base64 decoding inverts base64 encoding on every byte buffer — the
transport envelope round-trip law decodeInbound(encodeOutbound(x)) = x, with
encodeOutbound at main.py line 195 and decodeInbound at line 244. -/
theorem b64_roundtrip : ∀ bs : List Nat, (∀ b ∈ bs, b < 256) →
    b64decode (b64encode bs) = bs
  | [] => fun _ => rfl
  | [b0] => fun h => by
      have hb0 : b0 < 256 := h b0 (by simp)
      have h1 := sextet_roundtrip (b0 / 4) (by omega)
      have h2 := sextet_roundtrip ((b0 % 4) * 16) (by omega)
      simp only [b64encode, b64decode, eq_self_iff_true, if_true]
      rw [h1.1, h2.1]
      simp only [List.cons.injEq, and_true]
      omega
  | [b0, b1] => fun h => by
      have hb0 : b0 < 256 := h b0 (by simp)
      have hb1 : b1 < 256 := h b1 (by simp)
      have h1 := sextet_roundtrip (b0 / 4) (by omega)
      have h2 := sextet_roundtrip ((b0 % 4) * 16 + b1 / 16) (by omega)
      have h3 := sextet_roundtrip ((b1 % 16) * 4) (by omega)
      simp only [b64encode, b64decode, eq_self_iff_true, if_true, if_neg h3.2]
      rw [h1.1, h2.1, h3.1]
      simp only [List.cons.injEq, and_true]
      omega
  | b0 :: b1 :: b2 :: rest => fun h => by
      have hb0 : b0 < 256 := h b0 (by simp)
      have hb1 : b1 < 256 := h b1 (by simp)
      have hb2 : b2 < 256 := h b2 (by simp)
      have h1 := sextet_roundtrip (b0 / 4) (by omega)
      have h2 := sextet_roundtrip ((b0 % 4) * 16 + b1 / 16) (by omega)
      have h3 := sextet_roundtrip ((b1 % 16) * 4 + b2 / 64) (by omega)
      have h4 := sextet_roundtrip (b2 % 64) (by omega)
      have ih := b64_roundtrip rest (fun b hb => h b (by simp [hb]))
      simp only [b64encode, b64decode, if_neg h4.2]
      rw [h1.1, h2.1, h3.1, h4.1, ih]
      simp only [List.cons.injEq, and_true]
      refine ⟨by omega, by omega, by omega⟩

/-- Witness for C9 at a concrete five-byte PCM buffer. -/
theorem b64_roundtrip_witness :
    b64decode (b64encode [7, 200, 33, 61, 255]) = [7, 200, 33, 61, 255] :=
  b64_roundtrip [7, 200, 33, 61, 255] (by decide)

/-! ## Helper lemmas: the client pump body -/

theorem int2float_length (samples : List Int) :
    (int2float samples).length = samples.length := by
  unfold int2float
  split <;> rw [List.length_map]

theorem vadDrainLoop_raise_first (classify : List ℚ → Except String Bool)
    (buf : List ℚ) (e : String) (h : 512 ≤ buf.length)
    (hc : classify (buf.take 512) = .error e) :
    vadDrainLoop classify buf = (buf.drop 512, some e) := by
  rw [vadDrainLoop, dif_pos h, hc]

theorem vadDrainLoop_short (classify : List ℚ → Except String Bool)
    (buf : List ℚ) (h : ¬ 512 ≤ buf.length) :
    vadDrainLoop classify buf = (buf, none) := by
  rw [vadDrainLoop, dif_neg h]

theorem bytesToInt16_replicate_zero : ∀ n : Nat,
    bytesToInt16 (List.replicate (2 * n) 0) = .ok (List.replicate n (0 : Int))
  | 0 => rfl
  | n + 1 => by
      have h2 : 2 * (n + 1) = (2 * n) + 1 + 1 := by omega
      rw [h2, List.replicate_succ, List.replicate_succ]
      simp only [bytesToInt16, bytesToInt16_replicate_zero n, Except.map]
      norm_num
      rw [List.replicate_succ]

/-- C3 counterexample, two concrete inbound messages the claim gets wrong.
First, with a classifier that raises, a message whose 1024 audio bytes decode
to one full 512-sample block is NOT forwarded to the model — the exception
from the vad_iterator call inside the shared try block skips the gemini send
at line 265 — although the session is not aborted.  Second, a two-byte
message (a single int16 sample) is NOT forwarded even though the classifier
never runs, let alone raises: the squeeze at line 70 makes a 0-d tensor whose
tolist() is a bare float, so vad_buffer.extend at line 251 raises TypeError
inside the same try block; the session again survives. -/
theorem vad_raise_blocks_forwarding_cex :
    (handleAudioMessage (fun _ => .error "classifier failure") []
        (.ok (List.replicate 1024 0))).forwarded = none ∧
    (handleAudioMessage (fun _ => .error "classifier failure") []
        (.ok (List.replicate 1024 0))).aborted = false ∧
    (handleAudioMessage (fun _ => .ok true) [] (.ok [1, 0])).forwarded = none ∧
    (handleAudioMessage (fun _ => .ok true) [] (.ok [1, 0])).aborted = false := by
  have hb : bytesToInt16 (List.replicate 1024 0) =
      .ok ((0 : Int) :: (0 : Int) :: List.replicate 510 0) := by
    have hr := bytesToInt16_replicate_zero 512
    rw [show 2 * 512 = 1024 from rfl] at hr
    rw [hr, show (512 : Nat) = 510 + 1 + 1 from rfl, List.replicate_succ,
      List.replicate_succ]
  have hlen : (([] : List ℚ) ++
      int2float ((0 : Int) :: (0 : Int) :: List.replicate 510 0)).length = 512 := by
    rw [List.nil_append, int2float_length, List.length_cons, List.length_cons,
      List.length_replicate]
  have hv := vadDrainLoop_raise_first (fun _ => .error "classifier failure")
      ([] ++ int2float ((0 : Int) :: (0 : Int) :: List.replicate 510 0))
      "classifier failure" (by rw [hlen]) rfl
  refine ⟨?_, ?_, rfl, rfl⟩ <;> simp only [handleAudioMessage, hb, hv]

/-- C3 amended: for each inbound client audio message the session is never
aborted and the classifier's boolean speech decisions never gate forwarding;
the raw decoded bytes are forwarded with endOfTurn=false when the message
decodes to at least two int16 samples and no classifier call raises.  But a
raise inside the message body skips the forward without aborting: when the
classifier raises on some block the affected block is dropped and nothing is
forwarded for that message, and a single-sample message is never forwarded
because the squeeze in int2float makes a 0-d tensor whose tolist() is a bare
float, so vad_buffer.extend raises TypeError before any classifier call
(main.py lines 70, 240-269). -/
theorem audio_forwarding_amended (classify : List ℚ → Except String Bool)
    (vadBuffer : List ℚ) (decoded : Except String (List Nat)) :
    (handleAudioMessage classify vadBuffer decoded).aborted = false ∧
    (∀ audio s0 s1 samples, decoded = .ok audio →
      bytesToInt16 audio = .ok (s0 :: s1 :: samples) →
      (vadDrainLoop classify (vadBuffer ++ int2float (s0 :: s1 :: samples))).2 = none →
      (handleAudioMessage classify vadBuffer decoded).forwarded =
        some (audio, false)) ∧
    (∀ audio s0 s1 samples e, decoded = .ok audio →
      bytesToInt16 audio = .ok (s0 :: s1 :: samples) →
      (vadDrainLoop classify (vadBuffer ++ int2float (s0 :: s1 :: samples))).2 = some e →
      (handleAudioMessage classify vadBuffer decoded).forwarded = none) ∧
    (∀ audio s, decoded = .ok audio → bytesToInt16 audio = .ok [s] →
      (handleAudioMessage classify vadBuffer decoded).forwarded = none) ∧
    (∀ e, decoded = .error e →
      (handleAudioMessage classify vadBuffer decoded).forwarded = none) := by
  refine ⟨?_, ?_, ?_, ?_, ?_⟩
  · unfold handleAudioMessage
    split
    · rfl
    · split
      · rfl
      · rfl
      · rfl
      · split <;> rfl
  · intro audio s0 s1 samples h1 h2 h3
    subst h1
    simp only [handleAudioMessage, h2]
    rcases hv : vadDrainLoop classify (vadBuffer ++ int2float (s0 :: s1 :: samples))
      with ⟨buf2, o⟩
    rw [hv] at h3
    simp at h3
    subst h3
    rfl
  · intro audio s0 s1 samples e h1 h2 h3
    subst h1
    simp only [handleAudioMessage, h2]
    rcases hv : vadDrainLoop classify (vadBuffer ++ int2float (s0 :: s1 :: samples))
      with ⟨buf2, o⟩
    rw [hv] at h3
    simp only at h3
    subst h3
    rfl
  · intro audio s h1 h2
    subst h1
    simp only [handleAudioMessage, h2]
  · intro e h1
    subst h1
    rfl

/-- Witness for C3 amended: a four-byte message (two samples, no full block)
with a succeeding classifier is forwarded with endOfTurn=false. -/
theorem audio_forwarding_amended_witness :
    (handleAudioMessage (fun _ => .ok false) [] (.ok [1, 0, 2, 0])).forwarded =
      some ([1, 0, 2, 0], false) := by
  have hl : ¬ (512 ≤ (([] : List ℚ) ++ int2float [(1 : Int), 2]).length) := by
    rw [List.nil_append, int2float_length]
    simp
  exact (audio_forwarding_amended (fun _ => .ok false) [] (.ok [1, 0, 2, 0])).2.1
    [1, 0, 2, 0] 1 2 [] rfl rfl
    (by rw [vadDrainLoop_short _ _ hl])
